import Mathlib

/-!
Shallow embedding of the payment-request workflow of this repository
(`database.py` and the view logic of `app.py`).

Modelling conventions:
* SQLite `TIMESTAMP` columns filled by `CURRENT_TIMESTAMP` are modelled as an
  abstract tick `now : Nat` passed to every mutating operation; `NULL`-able
  columns are `Option`s.
* SQLite `REAL` amounts are modelled as `ℚ`.
* `agreed_payment_date` is stored as `TEXT`; the views parse it with
  `datetime.strptime(s, "%Y-%m-%d").date()`, modelled by `parseDate` below.
* Python date comparison and `timedelta` arithmetic are modelled through the
  proleptic-Gregorian day number `Date.rata` (an order isomorphism onto ℕ on
  valid dates), so `d1 <= d2` becomes `d1.rata ≤ d2.rata` and
  `today + timedelta(days = k)` becomes the date with number `today.rata + k`.
-/

namespace Pagos

/-- A calendar date (proleptic Gregorian), as produced by Python's
`datetime.date`. -/
structure Date where
  year : Nat
  month : Nat
  day : Nat
  deriving DecidableEq, Repr

/-- Gregorian leap-year rule, as in Python's `calendar.isleap`. -/
def isLeapYear (y : Nat) : Bool :=
  (y % 4 == 0 && y % 100 != 0) || y % 400 == 0

/-- Number of days of month `m` of year `y` (months are 1-based). -/
def daysInMonth (y m : Nat) : Nat :=
  if m = 2 then (if isLeapYear y then 29 else 28)
  else if m = 4 ∨ m = 6 ∨ m = 9 ∨ m = 11 then 30
  else 31

/-- Days of year `y` strictly before month `m`. -/
def daysBeforeMonth (y m : Nat) : Nat :=
  ((List.range (m - 1)).map (fun i => daysInMonth y (i + 1))).sum

/-- Proleptic-Gregorian day number of a date (rata die: 0001-01-01 ↦ 1).
On valid dates this is the order isomorphism underlying Python's date
comparison and `timedelta` arithmetic. -/
def Date.rata (d : Date) : Nat :=
  365 * (d.year - 1) + (d.year - 1) / 4 - (d.year - 1) / 100 + (d.year - 1) / 400
    + daysBeforeMonth d.year d.month + d.day

/-- Split a character list at each `'-'`, keeping empty pieces (the shape of
the separator structure `%Y-%m-%d` expects). -/
def splitDash : List Char → List (List Char)
  | [] => [[]]
  | c :: rest =>
    if c = '-' then [] :: splitDash rest
    else
      match splitDash rest with
      | [] => [[c]]
      | p :: ps => (c :: p) :: ps

/-- Value of a list of decimal digit characters. -/
def digitsToNat (cs : List Char) : Nat :=
  cs.foldl (fun n c => n * 10 + (c.toNat - 48)) 0

/-- Embedding of `datetime.strptime(s, "%Y-%m-%d").date()` wrapped in
`try/except` (returns `none` where Python raises).  CPython's `_strptime`
compiles `%Y` to exactly four digits, `%m` and `%d` to one or two digits,
requires the whole string to be consumed, and `datetime` then rejects
out-of-range components (year 0, month 0 or > 12, day 0 or past the end of
the month). -/
def parseDate (s : String) : Option Date :=
  match splitDash s.data with
  | [ys, ms, ds] =>
    if ys.length = 4 ∧ ys.all Char.isDigit ∧
        1 ≤ ms.length ∧ ms.length ≤ 2 ∧ ms.all Char.isDigit ∧
        1 ≤ ds.length ∧ ds.length ≤ 2 ∧ ds.all Char.isDigit then
      let y := digitsToNat ys
      let m := digitsToNat ms
      let d := digitsToNat ds
      if 1 ≤ y ∧ 1 ≤ m ∧ m ≤ 12 ∧ 1 ≤ d ∧ d ≤ daysInMonth y m then
        some ⟨y, m, d⟩
      else none
    else none
  | _ => none

/-- A row of the `payment_requests` table (`database.py`, `init_database`). -/
structure PaymentRequest where
  id : Nat
  provider_name : String
  provider_id : Option String := none
  purchase_order_number : Option String := none
  np_type : Option String := none
  np_number : Option String := none
  amount : ℚ
  payment_type : String
  payment_method : String
  payment_term : Option String := none
  agreed_payment_date : Option String := none
  mockup_path : Option String := none
  invoice_path : Option String := none
  requested_by : String
  status : String := "pendiente"
  cfo_approved : Bool := false
  cfo_approved_by : Option String := none
  cfo_approved_at : Option Nat := none
  admin_notes : Option String := none
  payment_proof_path : Option String := none
  created_at : Nat
  updated_at : Nat
  completed_at : Option Nat := none
  deriving DecidableEq, Repr

/-- The `payment_requests` table: its rows plus the `AUTOINCREMENT`
counter (the next id SQLite will hand out). -/
structure DB where
  rows : List PaymentRequest
  nextId : Nat
  deriving DecidableEq, Repr

/-- The data dict passed to `create_payment_request` (required keys are plain
fields, keys read with `.get` are `Option`s). -/
structure RequestData where
  provider_name : String
  provider_id : Option String := none
  purchase_order_number : Option String := none
  np_type : Option String := none
  np_number : Option String := none
  amount : ℚ
  payment_type : String
  payment_method : String
  payment_term : Option String := none
  agreed_payment_date : Option String := none
  mockup_path : Option String := none
  invoice_path : Option String := none
  requested_by : String
  deriving DecidableEq, Repr

/-- `database.create_payment_request`: INSERT with `status = 'pendiente'`,
the `DEFAULT` clauses filling `cfo_approved = 0`,
`created_at = updated_at = CURRENT_TIMESTAMP`, and `lastrowid` returned. -/
def create_payment_request (db : DB) (now : Nat) (data : RequestData) :
    DB × Nat :=
  let row : PaymentRequest :=
    { id := db.nextId
      provider_name := data.provider_name
      provider_id := data.provider_id
      purchase_order_number := data.purchase_order_number
      np_type := data.np_type
      np_number := data.np_number
      amount := data.amount
      payment_type := data.payment_type
      payment_method := data.payment_method
      payment_term := data.payment_term
      agreed_payment_date := data.agreed_payment_date
      mockup_path := data.mockup_path
      invoice_path := data.invoice_path
      requested_by := data.requested_by
      status := "pendiente"
      cfo_approved := false
      cfo_approved_by := none
      cfo_approved_at := none
      admin_notes := none
      payment_proof_path := none
      created_at := now
      updated_at := now
      completed_at := none }
  ({ rows := db.rows ++ [row], nextId := db.nextId + 1 }, db.nextId)

/-- Python truthiness of an optional string (`if status:`,
`if p['agreed_payment_date']:`): `None` and `""` are falsy. -/
def truthyOpt : Option String → Bool
  | none => false
  | some s => s ≠ ""

/-- Stable insertion of `x` into `l`, placing `x` before the first element it
is `le`-related to (stable for a reflexive total `le`). -/
def insertSorted (le : α → α → Bool) (x : α) : List α → List α
  | [] => [x]
  | y :: ys => if le x y then x :: y :: ys else y :: insertSorted le x ys

/-- Stable insertion sort by a boolean comparison; models SQL `ORDER BY` and
Python's stable `sorted`. -/
def sortByLe (le : α → α → Bool) : List α → List α
  | [] => []
  | x :: xs => insertSorted le x (sortByLe le xs)

/-- Comparison used by `ORDER BY created_at DESC`. -/
def createdAtDesc (a b : PaymentRequest) : Bool :=
  decide (b.created_at ≤ a.created_at)

/-- `database.get_payment_requests`: `if status:` filters on equality, else
all rows; either way `ORDER BY created_at DESC`. -/
def get_payment_requests (db : DB) (status : Option String) :
    List PaymentRequest :=
  if truthyOpt status then
    sortByLe createdAtDesc
      (db.rows.filter (fun r => decide (r.status = status.getD "")))
  else
    sortByLe createdAtDesc db.rows

/-- `database.get_payment_request`: `SELECT * ... WHERE id = ?` (first
matching row, or `None`). -/
def get_payment_request (db : DB) (rid : Nat) : Option PaymentRequest :=
  db.rows.find? (fun r => r.id == rid)

/-- The per-row effect of `database.update_payment_status`: always overwrite
`status` and `updated_at`; overwrite `admin_notes` / `payment_proof_path`
only when the argument `is not None`; set `completed_at = CURRENT_TIMESTAMP`
exactly when the new status is `'completado'`. -/
def applyStatusUpdate (now : Nat) (status : String)
    (admin_notes payment_proof_path : Option String) (r : PaymentRequest) :
    PaymentRequest :=
  { r with
    status := status
    updated_at := now
    admin_notes :=
      match admin_notes with
      | some s => some s
      | none => r.admin_notes
    payment_proof_path :=
      match payment_proof_path with
      | some s => some s
      | none => r.payment_proof_path
    completed_at :=
      if status = "completado" then some now else r.completed_at }

/-- `database.update_payment_status`: UPDATE of the rows matching the id, the
returned Bool being `cursor.rowcount > 0`. -/
def update_payment_status (db : DB) (now : Nat) (rid : Nat) (status : String)
    (admin_notes payment_proof_path : Option String) : DB × Bool :=
  ({ db with
      rows := db.rows.map (fun r =>
        if r.id == rid then
          applyStatusUpdate now status admin_notes payment_proof_path r
        else r) },
   db.rows.any (fun r => r.id == rid))

/-- `database.approve_cfo`: unconditional UPDATE by id — no check of the
current status. -/
def approve_cfo (db : DB) (now : Nat) (rid : Nat) (approved_by : String) :
    DB × Bool :=
  ({ db with
      rows := db.rows.map (fun r =>
        if r.id == rid then
          { r with
            cfo_approved := true
            cfo_approved_by := some approved_by
            cfo_approved_at := some now
            status := "aprobado_cfo"
            updated_at := now }
        else r) },
   db.rows.any (fun r => r.id == rid))

/-- The rejection message `f"Rechazado por CFO: {reason or 'Sin motivo
especificado'}"` — a falsy reason (`None` or `""`) picks the default text. -/
def rejectionMessage (reason : Option String) : String :=
  "Rechazado por CFO: " ++
    (match reason with
     | some s => if s ≠ "" then s else "Sin motivo especificado"
     | none => "Sin motivo especificado")

/-- SQL `COALESCE(admin_notes || ' | ', '') || msg`: `NULL || ' | '` is
`NULL`, so NULL notes yield `msg` alone, while any non-NULL notes (the empty
string included) yield `notes ++ " | " ++ msg`. -/
def coalesceRejectNotes (notes : Option String) (msg : String) : String :=
  match notes with
  | some s => s ++ " | " ++ msg
  | none => msg

/-- `database.reject_cfo`: unconditional UPDATE by id — no check of the
current status. -/
def reject_cfo (db : DB) (now : Nat) (rid : Nat) (approved_by : String)
    (reason : Option String) : DB × Bool :=
  ({ db with
      rows := db.rows.map (fun r =>
        if r.id == rid then
          { r with
            cfo_approved := false
            cfo_approved_by := some approved_by
            cfo_approved_at := some now
            status := "rechazado"
            admin_notes :=
              some (coalesceRejectNotes r.admin_notes (rejectionMessage reason))
            updated_at := now }
        else r) },
   db.rows.any (fun r => r.id == rid))

/-! ### The form-submission boundary (`app.py`, "Producción - Solicitar Pago") -/

/-- Result of a form submission: a validation error message shown with
`st.error`, or the id of the created request. -/
inductive SubmitResult where
  | validationError (msg : String)
  | created (rid : Nat)
  deriving DecidableEq, Repr

/-- Embedding of the submission handler of the payment-request form
(`app.py`, `if submitted:`).  Text inputs yield `""` when left empty;
`payment_type` and `payment_method` carry the selected widget label and are
lowercased as in the source; `agreed_date` stands for
`agreed_date.isoformat() if agreed_date else None`. -/
def submit_payment_request (db : DB) (now : Nat) (selected_user : String)
    (provider_name : String) (provider_id : Option String)
    (oc_type oc_number : String) (np_type np_number : String)
    (amount : ℚ) (payment_type payment_method : String)
    (payment_term : String) (agreed_date : Option String)
    (mockup_path invoice_path : Option String) : DB × SubmitResult :=
  if provider_name = "" then
    (db, .validationError "Por favor ingrese el nombre del proveedor.")
  else if np_number = "" then
    (db, .validationError "Por favor ingrese el número de Nota de Pedido.")
  else if amount ≤ 0 then
    (db, .validationError "Por favor ingrese un monto válido.")
  else
    let oc_full : Option String :=
      if oc_number ≠ "" then some (oc_type ++ "-" ++ oc_number) else none
    let data : RequestData :=
      { provider_name := provider_name
        provider_id :=
          match provider_id with
          | some s => if s ≠ "" then some s else none
          | none => none
        purchase_order_number := oc_full
        np_type := some np_type
        np_number := some np_number
        amount := amount
        payment_type := payment_type.toLower
        payment_method := payment_method.toLower
        payment_term := if payment_term ≠ "" then some payment_term else none
        agreed_payment_date := agreed_date
        mockup_path := mockup_path
        invoice_path := invoice_path
        requested_by := selected_user }
    let res := create_payment_request db now data
    (res.1, .created res.2)

/-- The "Guardar Notas" handler (`app.py`, admin view): re-applies the
request's displayed current status and passes the text area's content (a
plain string, never `None`) as `admin_notes`. -/
def save_notes (db : DB) (now : Nat) (rid : Nat) (current_status : String)
    (notes : String) : DB × Bool :=
  update_payment_status db now rid current_status (some notes) none

/-! ### Calendar and upcoming views (`app.py`, "Calendario de Pagos") -/

/-- Membership test `r['status'] in ['pendiente', 'en_proceso']`. -/
def isActiveStatus (s : String) : Bool :=
  s == "pendiente" || s == "en_proceso"

/-- `scheduled_payments`: requests with a truthy `agreed_payment_date` and an
active status. -/
def scheduled_payments (reqs : List PaymentRequest) : List PaymentRequest :=
  reqs.filter (fun r => truthyOpt r.agreed_payment_date && isActiveStatus r.status)

/-- The per-request step of the calendar month filter: parse the agreed date
(`except: continue` yields `none` on failure) and keep the request if the
date lies in the selected month and year. -/
def monthPick (month year : Nat) (r : PaymentRequest) :
    Option (PaymentRequest × Date) :=
  match parseDate (r.agreed_payment_date.getD "") with
  | some d => if d.month = month ∧ d.year = year then some (r, d) else none
  | none => none

/-- `month_payments`: the per-request month filter over
`scheduled_payments`. -/
def month_payments (reqs : List PaymentRequest) (month year : Nat) :
    List (PaymentRequest × Date) :=
  (scheduled_payments reqs).filterMap (monthPick month year)

/-- One step of building the `payments_by_date` dict: append the payment to
its date's group, creating the group at the end on first sight (Python dicts
keep insertion order). -/
def addToGroups (d : Date) (p : PaymentRequest × Date) :
    List (Date × List (PaymentRequest × Date)) →
      List (Date × List (PaymentRequest × Date))
  | [] => [(d, [p])]
  | (k, ps) :: rest =>
    if k = d then (k, ps ++ [p]) :: rest else (k, ps) :: addToGroups d p rest

/-- The `payments_by_date` grouping dict of the calendar view. -/
def payments_by_date (l : List (PaymentRequest × Date)) :
    List (Date × List (PaymentRequest × Date)) :=
  l.foldl (fun acc p => addToGroups p.2 p acc) []

/-- `payments_by_date.get(current_date, [])`. -/
def lookupDate : List (Date × List (PaymentRequest × Date)) → Date →
    List (PaymentRequest × Date)
  | [], _ => []
  | (k, ps) :: rest, d => if k = d then ps else lookupDate rest d

/-- The month-wide metric `total_month = sum(p['amount'] for p in
month_payments)`. -/
def total_month (reqs : List PaymentRequest) (month year : Nat) : ℚ :=
  ((month_payments reqs month year).map (fun p => p.1.amount)).sum

/-- Ascending-by-payment-date comparison used by `sorted(..., key=lambda x:
x['payment_date'])`. -/
def byDateAsc (a b : PaymentRequest × Date) : Bool :=
  decide (a.2.rata ≤ b.2.rata)

/-- The per-request step of the "Próximos 7 días" filter: parse the agreed
date (`except: continue` yields `none` on failure) and keep the request if
`today <= payment_date <= today + timedelta(days=7)`. -/
def upcomingPick (today : Date) (r : PaymentRequest) :
    Option (PaymentRequest × Date) :=
  match parseDate (r.agreed_payment_date.getD "") with
  | some d =>
    if today.rata ≤ d.rata ∧ d.rata ≤ today.rata + 7 then some (r, d)
    else none
  | none => none

/-- The "Próximos 7 días" list: the window filter over `scheduled_payments`,
sorted ascending by date. -/
def upcoming_payments (reqs : List PaymentRequest) (today : Date) :
    List (PaymentRequest × Date) :=
  sortByLe byDateAsc ((scheduled_payments reqs).filterMap (upcomingPick today))

/-- `days_until = (p['payment_date'] - today).days` (non-negative inside the
upcoming window). -/
def days_until (today d : Date) : Nat :=
  d.rata - today.rata

/-- The urgency marker `"🔴" if days_until <= 2 else "🟠" if days_until <= 4
else "🟡"`. -/
def urgencyIcon (du : Nat) : String :=
  if du ≤ 2 then "🔴" else if du ≤ 4 then "🟠" else "🟡"

/-- Modelled from the spec: §4.3 names the three urgency tiers that the code
renders as the icons 🔴 / 🟠 / 🟡 — `days_until ≤ 2 → high`, `≤ 4 → medium`,
else `low`. -/
def urgencyTierSpec (du : Nat) : String :=
  if du ≤ 2 then "high" else if du ≤ 4 then "medium" else "low"

/-! ### Cashflow projection (`app.py`, "Cashflow Proyectado") -/

/-- `active_payments`: requests with status in `['pendiente',
'en_proceso']`. -/
def active_payments (reqs : List PaymentRequest) : List PaymentRequest :=
  reqs.filter (fun r => isActiveStatus r.status)

/-- The `with_date` / `without_date` split of `active_payments`: a truthy,
parsable date goes (with its parse) to the first list; a missing, empty or
unparsable date sends the request to the second. -/
def partitionDates : List PaymentRequest →
    List (PaymentRequest × Date) × List PaymentRequest
  | [] => ([], [])
  | r :: rest =>
    let res := partitionDates rest
    if truthyOpt r.agreed_payment_date then
      match parseDate (r.agreed_payment_date.getD "") with
      | some d => ((r, d) :: res.1, res.2)
      | none => (res.1, r :: res.2)
    else (res.1, r :: res.2)

/-- The `with_date` list of the cashflow view. -/
def with_date (reqs : List PaymentRequest) : List (PaymentRequest × Date) :=
  (partitionDates (active_payments reqs)).1

/-- The `without_date` list of the cashflow view. -/
def without_date (reqs : List PaymentRequest) : List PaymentRequest :=
  (partitionDates (active_payments reqs)).2

/-- `total_unscheduled = sum(p['amount'] for p in without_date)`. -/
def total_unscheduled (reqs : List PaymentRequest) : ℚ :=
  ((without_date reqs).map (fun r => r.amount)).sum

/-- One row of the projection tables: a bucket's summed amount and payment
count. -/
structure Bucket where
  total : ℚ
  count : Nat
  deriving DecidableEq, Repr

/-- Week `i` of the weekly projection: `week_start = today +
timedelta(weeks=i)`, `week_end = week_start + timedelta(days=6)`, summing the
`with_date` payments with `week_start <= payment_date <= week_end`. -/
def week_bucket (today : Date) (wd : List (PaymentRequest × Date)) (i : Nat) :
    Bucket :=
  let ws := today.rata + 7 * i
  let we := ws + 6
  let wp := wd.filter (fun p => decide (ws ≤ p.2.rata ∧ p.2.rata ≤ we))
  ⟨(wp.map (fun p => p.1.amount)).sum, wp.length⟩

/-- The "Semanal (próximas 8 semanas)" projection. -/
def weekly_projection (today : Date) (reqs : List PaymentRequest) :
    List Bucket :=
  (List.range 8).map (week_bucket today (with_date reqs))

/-- Linear month index of a date (used to evaluate `today +
relativedelta(months=i)` followed by `.replace(day=1)`). -/
def monthIndex (d : Date) : Nat :=
  d.year * 12 + (d.month - 1)

/-- Month `i` of the monthly projection: `month_start` is day 1 of the `i`-th
month after today's month, `month_end = month_start + relativedelta(months=1)
- timedelta(days=1)` is its last day, and the bucket sums the `with_date`
payments with `month_start <= payment_date <= month_end`. -/
def month_bucket (today : Date) (wd : List (PaymentRequest × Date)) (i : Nat) :
    Bucket :=
  let mi := monthIndex today + i
  let y := mi / 12
  let m := mi % 12 + 1
  let startR := (Date.mk y m 1).rata
  let endR := (Date.mk y m (daysInMonth y m)).rata
  let mp := wd.filter (fun p => decide (startR ≤ p.2.rata ∧ p.2.rata ≤ endR))
  ⟨(mp.map (fun p => p.1.amount)).sum, mp.length⟩

/-- The "Mensual (próximos 6 meses)" projection. -/
def monthly_projection (today : Date) (reqs : List PaymentRequest) :
    List Bucket :=
  (List.range 6).map (month_bucket today (with_date reqs))

/-! ### Cumulative cashflow (`app.py`, "Cashflow Acumulado") -/

/-- One entry of the `cumulative_data` table (`Fecha`, `Pago`, `Acumulado`,
`Proveedor`). -/
structure CumEntry where
  fecha : Date
  pago : ℚ
  acumulado : ℚ
  proveedor : String
  deriving DecidableEq, Repr

/-- The running-total loop: `running_total += p['amount']` per sorted
payment. -/
def cumScan (running : ℚ) : List (PaymentRequest × Date) → List CumEntry
  | [] => []
  | p :: rest =>
    let rt := running + p.1.amount
    ⟨p.2, p.1.amount, rt, p.1.provider_name⟩ :: cumScan rt rest

/-- The cumulative-cashflow table: `with_date` sorted ascending by date,
scanned with a running total starting at 0. -/
def cumulative_cashflow (reqs : List PaymentRequest) : List CumEntry :=
  cumScan 0 (sortByLe byDateAsc (with_date reqs))

/-! ### Helper lemmas about sorting -/

theorem insertSorted_perm (le : α → α → Bool) (x : α) (l : List α) :
    (insertSorted le x l).Perm (x :: l) := by
  induction l with
  | nil => exact List.Perm.refl _
  | cons y ys ih =>
    by_cases h : le x y = true
    · simp only [insertSorted, if_pos h]
      exact List.Perm.refl _
    · simp only [insertSorted, if_neg h]
      exact (ih.cons y).trans (List.Perm.swap x y ys)

theorem sortByLe_perm (le : α → α → Bool) (l : List α) :
    (sortByLe le l).Perm l := by
  induction l with
  | nil => exact List.Perm.refl _
  | cons x xs ih => exact (insertSorted_perm le x _).trans (ih.cons x)

theorem mem_sortByLe {le : α → α → Bool} {l : List α} {a : α} :
    a ∈ sortByLe le l ↔ a ∈ l :=
  (sortByLe_perm le l).mem_iff

theorem mem_insertSorted {le : α → α → Bool} {x : α} {l : List α} {a : α} :
    a ∈ insertSorted le x l ↔ a = x ∨ a ∈ l := by
  rw [(insertSorted_perm le x l).mem_iff (a := a)]
  exact List.mem_cons

theorem pairwise_insertSorted (le : α → α → Bool)
    (hTot : ∀ a b, le a b = true ∨ le b a = true)
    (hTrans : ∀ a b c, le a b = true → le b c = true → le a c = true)
    (x : α) (l : List α) (h : l.Pairwise (fun a b => le a b = true)) :
    (insertSorted le x l).Pairwise (fun a b => le a b = true) := by
  induction l with
  | nil => simp [insertSorted]
  | cons y ys ih =>
    rcases List.pairwise_cons.1 h with ⟨hy, hys⟩
    by_cases hxy : le x y = true
    · simp only [insertSorted, if_pos hxy]
      refine List.pairwise_cons.2 ⟨?_, h⟩
      intro a ha
      rcases List.mem_cons.1 ha with rfl | ha
      · exact hxy
      · exact hTrans x y a hxy (hy a ha)
    · simp only [insertSorted, if_neg hxy]
      refine List.pairwise_cons.2 ⟨?_, ih hys⟩
      intro a ha
      rcases mem_insertSorted.1 ha with heq | ha
      · rw [heq]
        rcases hTot x y with h1 | h1
        · exact absurd h1 hxy
        · exact h1
      · exact hy a ha

theorem pairwise_sortByLe (le : α → α → Bool)
    (hTot : ∀ a b, le a b = true ∨ le b a = true)
    (hTrans : ∀ a b c, le a b = true → le b c = true → le a c = true)
    (l : List α) :
    (sortByLe le l).Pairwise (fun a b => le a b = true) := by
  induction l with
  | nil => exact List.Pairwise.nil
  | cons y ys ih =>
    show (insertSorted le y (sortByLe le ys)).Pairwise (fun a b => le a b = true)
    exact pairwise_insertSorted le hTot hTrans y _ ih

/-! ### Helper lemmas about per-id updates -/

theorem find?_map_update (rid : Nat) (f : PaymentRequest → PaymentRequest)
    (hf : ∀ r, (f r).id = r.id) :
    ∀ l : List PaymentRequest,
      (l.map (fun r => if r.id == rid then f r else r)).find?
          (fun r => r.id == rid)
        = (l.find? (fun r => r.id == rid)).map f
  | [] => rfl
  | r :: rest => by
    rw [List.map_cons]
    by_cases h : (r.id == rid) = true
    · have h2 : ((f r).id == rid) = true := by rw [hf]; exact h
      rw [if_pos h, List.find?_cons_of_pos (p := fun x : PaymentRequest => x.id == rid) _ h2,
        List.find?_cons_of_pos (p := fun x : PaymentRequest => x.id == rid) _ h]
      rfl
    · rw [if_neg h, List.find?_cons_of_neg (p := fun x : PaymentRequest => x.id == rid) _ h,
        List.find?_cons_of_neg (p := fun x : PaymentRequest => x.id == rid) _ h]
      exact find?_map_update rid f hf rest

theorem any_eq_find?_isSome (p : PaymentRequest → Bool) :
    ∀ l : List PaymentRequest, l.any p = (l.find? p).isSome
  | [] => rfl
  | r :: rest => by
    by_cases h : p r = true
    · rw [List.any_cons, h, List.find?_cons_of_pos _ h]
      rfl
    · have h2 : p r = false := by
        cases hpr : p r with
        | false => rfl
        | true => exact absurd hpr h
      rw [List.any_cons, h2, List.find?_cons_of_neg _ h, Bool.false_or]
      exact any_eq_find?_isSome p rest

theorem map_id_of_no_match (rid : Nat) (f : PaymentRequest → PaymentRequest)
    (l : List PaymentRequest) (h : ∀ r ∈ l, ¬((r.id == rid) = true)) :
    l.map (fun r => if r.id == rid then f r else r) = l := by
  have heq : ∀ r ∈ l, (fun r => if r.id == rid then f r else r) r = id r := by
    intro r hr
    change (if r.id == rid then f r else r) = r
    rw [if_neg (h r hr)]
  rw [List.map_congr_left heq, List.map_id]

theorem update_payment_status_found (db : DB) (now rid : Nat) (status : String)
    (notes proofPath : Option String) (r : PaymentRequest)
    (h : get_payment_request db rid = some r) :
    (update_payment_status db now rid status notes proofPath).2 = true ∧
    get_payment_request
        (update_payment_status db now rid status notes proofPath).1 rid
      = some (applyStatusUpdate now status notes proofPath r) := by
  have hfind : db.rows.find? (fun x => x.id == rid) = some r := h
  constructor
  · show db.rows.any (fun x => x.id == rid) = true
    rw [any_eq_find?_isSome, hfind]
    rfl
  · show (db.rows.map (fun x =>
        if x.id == rid then applyStatusUpdate now status notes proofPath x
        else x)).find? (fun x => x.id == rid)
      = some (applyStatusUpdate now status notes proofPath r)
    rw [find?_map_update rid (applyStatusUpdate now status notes proofPath)
      (fun _ => rfl), hfind]
    rfl

theorem update_payment_status_not_found (db : DB) (now rid : Nat)
    (status : String) (notes proofPath : Option String)
    (h : get_payment_request db rid = none) :
    update_payment_status db now rid status notes proofPath = (db, false) := by
  have hfind : db.rows.find? (fun x => x.id == rid) = none := h
  have hall : ∀ r ∈ db.rows, ¬((r.id == rid) = true) := by
    intro r hr
    exact List.find?_eq_none.1 hfind r hr
  show ({ db with rows := db.rows.map (fun x =>
      if x.id == rid then applyStatusUpdate now status notes proofPath x
      else x) }, db.rows.any (fun x => x.id == rid)) = (db, false)
  rw [map_id_of_no_match rid _ _ hall, any_eq_find?_isSome, hfind]
  rfl

theorem approve_cfo_found (db : DB) (now rid : Nat) (approver : String)
    (r : PaymentRequest) (h : get_payment_request db rid = some r) :
    (approve_cfo db now rid approver).2 = true ∧
    get_payment_request (approve_cfo db now rid approver).1 rid
      = some { r with
          cfo_approved := true
          cfo_approved_by := some approver
          cfo_approved_at := some now
          status := "aprobado_cfo"
          updated_at := now } := by
  have hfind : db.rows.find? (fun x => x.id == rid) = some r := h
  constructor
  · show db.rows.any (fun x => x.id == rid) = true
    rw [any_eq_find?_isSome, hfind]
    rfl
  · show (db.rows.map (fun x =>
        if x.id == rid then
          { x with
            cfo_approved := true
            cfo_approved_by := some approver
            cfo_approved_at := some now
            status := "aprobado_cfo"
            updated_at := now }
        else x)).find? (fun x => x.id == rid)
      = some { r with
          cfo_approved := true
          cfo_approved_by := some approver
          cfo_approved_at := some now
          status := "aprobado_cfo"
          updated_at := now }
    rw [find?_map_update rid
      (fun x => { x with
        cfo_approved := true
        cfo_approved_by := some approver
        cfo_approved_at := some now
        status := "aprobado_cfo"
        updated_at := now })
      (fun _ => rfl), hfind]
    rfl

theorem reject_cfo_found (db : DB) (now rid : Nat) (approver : String)
    (reason : Option String) (r : PaymentRequest)
    (h : get_payment_request db rid = some r) :
    (reject_cfo db now rid approver reason).2 = true ∧
    get_payment_request (reject_cfo db now rid approver reason).1 rid
      = some { r with
          cfo_approved := false
          cfo_approved_by := some approver
          cfo_approved_at := some now
          status := "rechazado"
          admin_notes :=
            some (coalesceRejectNotes r.admin_notes (rejectionMessage reason))
          updated_at := now } := by
  have hfind : db.rows.find? (fun x => x.id == rid) = some r := h
  constructor
  · show db.rows.any (fun x => x.id == rid) = true
    rw [any_eq_find?_isSome, hfind]
    rfl
  · show (db.rows.map (fun x =>
        if x.id == rid then
          { x with
            cfo_approved := false
            cfo_approved_by := some approver
            cfo_approved_at := some now
            status := "rechazado"
            admin_notes :=
              some (coalesceRejectNotes x.admin_notes (rejectionMessage reason))
            updated_at := now }
        else x)).find? (fun x => x.id == rid)
      = some { r with
          cfo_approved := false
          cfo_approved_by := some approver
          cfo_approved_at := some now
          status := "rechazado"
          admin_notes :=
            some (coalesceRejectNotes r.admin_notes (rejectionMessage reason))
          updated_at := now }
    rw [find?_map_update rid
      (fun x => { x with
        cfo_approved := false
        cfo_approved_by := some approver
        cfo_approved_at := some now
        status := "rechazado"
        admin_notes :=
          some (coalesceRejectNotes x.admin_notes (rejectionMessage reason))
        updated_at := now })
      (fun _ => rfl), hfind]
    rfl

/-! ### Helper lemmas about the running-total scan -/

theorem cumScan_cons (r : ℚ) (p : PaymentRequest × Date)
    (rest : List (PaymentRequest × Date)) :
    cumScan r (p :: rest)
      = ⟨p.2, p.1.amount, r + p.1.amount, p.1.provider_name⟩
          :: cumScan (r + p.1.amount) rest := rfl

theorem cumScan_length (l : List (PaymentRequest × Date)) :
    ∀ r : ℚ, (cumScan r l).length = l.length := by
  induction l with
  | nil => intro r; rfl
  | cons p rest ih =>
    intro r
    rw [cumScan_cons, List.length_cons, List.length_cons, ih]

theorem cumScan_map_pago (l : List (PaymentRequest × Date)) :
    ∀ r : ℚ, (cumScan r l).map (fun e => e.pago)
      = l.map (fun p => p.1.amount) := by
  induction l with
  | nil => intro r; rfl
  | cons p rest ih =>
    intro r
    rw [cumScan_cons, List.map_cons, List.map_cons, ih]

theorem cumScan_map_fecha (l : List (PaymentRequest × Date)) :
    ∀ r : ℚ, (cumScan r l).map (fun e => e.fecha) = l.map (fun p => p.2) := by
  induction l with
  | nil => intro r; rfl
  | cons p rest ih =>
    intro r
    rw [cumScan_cons, List.map_cons, List.map_cons, ih]

theorem cumScan_acum_succ (l : List (PaymentRequest × Date)) :
    ∀ (r : ℚ) (i : Nat) (h : i + 1 < (cumScan r l).length),
      ((cumScan r l).get ⟨i + 1, h⟩).acumulado
        = ((cumScan r l).get ⟨i, Nat.lt_of_succ_lt h⟩).acumulado
          + ((cumScan r l).get ⟨i + 1, h⟩).pago := by
  induction l with
  | nil =>
    intro r i h
    exact absurd h (by simp [cumScan])
  | cons p rest ih =>
    intro r i h
    cases i with
    | zero =>
      cases rest with
      | nil => exact absurd h (by simp [cumScan])
      | cons q rest2 => rfl
    | succ j =>
      have h' : j + 1 < (cumScan (r + p.1.amount) rest).length := by
        have h2 := h
        rw [cumScan_cons, List.length_cons] at h2
        exact Nat.lt_of_succ_lt_succ h2
      exact ih (r + p.1.amount) j h'

theorem cumScan_acum_lb (l : List (PaymentRequest × Date)) :
    ∀ (r : ℚ), (∀ p ∈ l, 0 ≤ p.1.amount) →
      ∀ e ∈ cumScan r l, r ≤ e.acumulado := by
  induction l with
  | nil =>
    intro r _ e he
    simp [cumScan] at he
  | cons p rest ih =>
    intro r hpos e he
    rw [cumScan_cons] at he
    have ha : 0 ≤ p.1.amount := hpos p (List.mem_cons_self p rest)
    rcases List.mem_cons.1 he with heq | he2
    · rw [heq]
      exact le_add_of_nonneg_right ha
    · have hr := ih (r + p.1.amount)
        (fun q hq => hpos q (List.mem_cons_of_mem p hq)) e he2
      have : r ≤ r + p.1.amount := le_add_of_nonneg_right ha
      exact this.trans hr

theorem cumScan_pairwise_acum (l : List (PaymentRequest × Date)) :
    ∀ (r : ℚ), (∀ p ∈ l, 0 ≤ p.1.amount) →
      (cumScan r l).Pairwise (fun a b => a.acumulado ≤ b.acumulado) := by
  induction l with
  | nil => intro r _; exact List.Pairwise.nil
  | cons p rest ih =>
    intro r hpos
    rw [cumScan_cons]
    refine List.pairwise_cons.2 ⟨?_, ih (r + p.1.amount)
      (fun q hq => hpos q (List.mem_cons_of_mem p hq))⟩
    intro e he
    exact cumScan_acum_lb rest (r + p.1.amount)
      (fun q hq => hpos q (List.mem_cons_of_mem p hq)) e he

theorem cumScan_getLast?_acum (l : List (PaymentRequest × Date)) :
    ∀ (r : ℚ) (e : CumEntry), (cumScan r l).getLast? = some e →
      e.acumulado = r + (l.map (fun p => p.1.amount)).sum := by
  induction l with
  | nil =>
    intro r e he
    simp [cumScan] at he
  | cons p rest ih =>
    intro r e he
    cases rest with
    | nil =>
      have : e = ⟨p.2, p.1.amount, r + p.1.amount, p.1.provider_name⟩ := by
        rw [cumScan_cons] at he
        exact (by simpa [cumScan] using he : _ = e).symm
      rw [this]
      simp
    | cons q rest2 =>
      have hstep : (cumScan r (p :: q :: rest2)).getLast?
          = (cumScan (r + p.1.amount) (q :: rest2)).getLast? := by
        rw [cumScan_cons r p (q :: rest2), cumScan_cons (r + p.1.amount) q rest2]
        exact List.getLast?_cons_cons
      have hrec := ih (r + p.1.amount) e (by rw [← hstep]; exact he)
      rw [hrec]
      simp only [List.map_cons, List.sum_cons]
      ring

/-! ### Helper lemmas about the with-date / without-date partition -/

/-- A request has a truthy `agreed_payment_date` that parses to a date
satisfying `q`. -/
def hasDateSat (q : Date → Bool) (r : PaymentRequest) : Bool :=
  truthyOpt r.agreed_payment_date &&
    (match parseDate (r.agreed_payment_date.getD "") with
     | some d => q d
     | none => false)

theorem partitionDates_cons (r : PaymentRequest) (rest : List PaymentRequest) :
    partitionDates (r :: rest)
      = if truthyOpt r.agreed_payment_date then
          match parseDate (r.agreed_payment_date.getD "") with
          | some d => ((r, d) :: (partitionDates rest).1, (partitionDates rest).2)
          | none => ((partitionDates rest).1, r :: (partitionDates rest).2)
        else ((partitionDates rest).1, r :: (partitionDates rest).2) := rfl

theorem partitionDates_fst_filter (q : Date → Bool) :
    ∀ l : List PaymentRequest,
      ((partitionDates l).1.filter (fun p => q p.2)).map (fun p => p.1)
        = l.filter (hasDateSat q) := by
  intro l
  induction l with
  | nil => rfl
  | cons r rest ih =>
    rw [partitionDates_cons]
    cases ht : truthyOpt r.agreed_payment_date with
    | false => simp [List.filter_cons, hasDateSat, ht, ih]
    | true =>
      cases hp : parseDate (r.agreed_payment_date.getD "") with
      | none => simp [List.filter_cons, hasDateSat, ht, hp, ih]
      | some d =>
        cases hq : q d with
        | false => simp [List.filter_cons, hasDateSat, ht, hp, hq, ih]
        | true => simp [List.filter_cons, hasDateSat, ht, hp, hq, ih]

theorem partitionDates_snd_filter :
    ∀ l : List PaymentRequest,
      (partitionDates l).2 = l.filter (fun r =>
        !(truthyOpt r.agreed_payment_date &&
          (parseDate (r.agreed_payment_date.getD "")).isSome)) := by
  intro l
  induction l with
  | nil => rfl
  | cons r rest ih =>
    rw [partitionDates_cons]
    cases ht : truthyOpt r.agreed_payment_date with
    | false => simp [List.filter_cons, ht, ih]
    | true =>
      cases hp : parseDate (r.agreed_payment_date.getD "") with
      | none => simp [List.filter_cons, ht, hp, ih]
      | some d => simp [List.filter_cons, ht, hp, ih]

theorem mem_partitionDates_fst {l : List PaymentRequest}
    {p : PaymentRequest × Date} (h : p ∈ (partitionDates l).1) : p.1 ∈ l := by
  have hfst := partitionDates_fst_filter (fun _ => true) l
  rw [List.filter_true] at hfst
  have : p.1 ∈ ((partitionDates l).1).map (fun p => p.1) :=
    List.mem_map_of_mem (fun p => p.1) h
  rw [hfst] at this
  exact List.mem_of_mem_filter this

/-! ### Helper lemmas about the calendar grouping -/

theorem lookupDate_addToGroups (k : Date) (p : PaymentRequest × Date)
    (g : List (Date × List (PaymentRequest × Date))) (d : Date) :
    lookupDate (addToGroups k p g) d
      = if k = d then lookupDate g d ++ [p] else lookupDate g d := by
  induction g with
  | nil =>
    by_cases h : k = d
    · simp [addToGroups, lookupDate, h]
    · simp [addToGroups, lookupDate, h]
  | cons kv rest ih =>
    obtain ⟨k2, ps⟩ := kv
    by_cases h1 : k2 = k
    · by_cases h2 : k2 = d
      · simp [addToGroups, lookupDate, h1, h2, h1 ▸ h2]
      · have hkd : ¬(k = d) := fun hc => h2 (h1.trans hc)
        simp [addToGroups, lookupDate, h1, h2, hkd]
    · by_cases h2 : k2 = d
      · have hkd : ¬(k = d) := fun hc => h1 (h2.trans hc.symm)
        have hdk : ¬(d = k) := fun hc => hkd hc.symm
        simp [addToGroups, lookupDate, h1, h2, hkd, hdk]
      · simp [addToGroups, lookupDate, h1, h2, ih]

theorem lookupDate_foldl (l : List (PaymentRequest × Date)) :
    ∀ (acc : List (Date × List (PaymentRequest × Date))) (d : Date),
      lookupDate (l.foldl (fun a p => addToGroups p.2 p a) acc) d
        = lookupDate acc d ++ l.filter (fun p => decide (p.2 = d)) := by
  induction l with
  | nil =>
    intro acc d
    simp
  | cons p rest ih =>
    intro acc d
    rw [List.foldl_cons, ih (addToGroups p.2 p acc) d, lookupDate_addToGroups,
      List.filter_cons]
    by_cases h : p.2 = d
    · rw [if_pos h, if_pos (by simp [h])]
      simp
    · rw [if_neg h, if_neg (by simp [h])]

theorem lookupDate_payments_by_date (l : List (PaymentRequest × Date))
    (d : Date) :
    lookupDate (payments_by_date l) d = l.filter (fun p => decide (p.2 = d)) := by
  have := lookupDate_foldl l [] d
  simpa [payments_by_date, lookupDate] using this

/-! ### Helper lemmas about the month filter -/

theorem parseDate_of_falsy {o : Option String} (h : truthyOpt o = false) :
    parseDate (o.getD "") = none := by
  cases o with
  | none => rfl
  | some s =>
    have hs : s = "" := by
      by_contra hne
      rw [show truthyOpt (some s) = decide ¬(s = "") from rfl] at h
      simp [hne] at h
    rw [Option.getD_some, hs]
    rfl

theorem monthPick_eq_some {month year : Nat} {r : PaymentRequest}
    {p : PaymentRequest × Date} :
    monthPick month year r = some p ↔
      ∃ d, parseDate (r.agreed_payment_date.getD "") = some d ∧
        d.month = month ∧ d.year = year ∧ p = (r, d) := by
  cases hp : parseDate (r.agreed_payment_date.getD "") with
  | none => simp [monthPick, hp]
  | some d =>
    by_cases hc : d.month = month ∧ d.year = year
    · simp only [monthPick, hp, if_pos hc]
      constructor
      · intro h
        exact ⟨d, rfl, hc.1, hc.2, (Option.some.inj h).symm⟩
      · rintro ⟨d2, hd2, _, _, hpd⟩
        rw [← Option.some.inj hd2] at hpd
        rw [hpd]
    · simp only [monthPick, hp, if_neg hc]
      constructor
      · intro h
        exact absurd h (by simp)
      · rintro ⟨d2, hd2, hm, hy, _⟩
        rw [← Option.some.inj hd2] at hm hy
        exact absurd ⟨hm, hy⟩ hc

theorem mem_month_payments {reqs : List PaymentRequest} {month year : Nat}
    {r : PaymentRequest} {d : Date} :
    (r, d) ∈ month_payments reqs month year ↔
      r ∈ reqs ∧ truthyOpt r.agreed_payment_date = true ∧
      isActiveStatus r.status = true ∧
      parseDate (r.agreed_payment_date.getD "") = some d ∧
      d.month = month ∧ d.year = year := by
  constructor
  · intro h
    obtain ⟨a, ha, hfa⟩ := List.mem_filterMap.1 h
    obtain ⟨hmem, hflt⟩ := List.mem_filter.1 ha
    rw [Bool.and_eq_true] at hflt
    obtain ⟨ht, hs⟩ := hflt
    obtain ⟨d2, hp, hm, hy, hpd⟩ := monthPick_eq_some.1 hfa
    obtain ⟨h1, h2⟩ := Prod.mk.inj hpd
    rw [← h1] at hmem ht hs
    rw [← h1, ← h2] at hp
    rw [← h2] at hm hy
    exact ⟨hmem, ht, hs, hp, hm, hy⟩
  · rintro ⟨hmem, ht, hs, hp, h1, h2⟩
    refine List.mem_filterMap.2 ⟨r, List.mem_filter.2 ⟨hmem, ?_⟩, ?_⟩
    · rw [Bool.and_eq_true]
      exact ⟨ht, hs⟩
    · exact monthPick_eq_some.2 ⟨d, hp, h1, h2, rfl⟩

theorem filterMap_monthPick_map_fst (month year : Nat) :
    ∀ l : List PaymentRequest,
      ((l.filterMap (monthPick month year)).map (fun p => p.1))
        = l.filter (hasDateSat
            (fun d => decide (d.month = month ∧ d.year = year))) := by
  intro l
  induction l with
  | nil => rfl
  | cons r rest ih =>
    cases hp : parseDate (r.agreed_payment_date.getD "") with
    | none =>
      have hfr : monthPick month year r = none := by
        simp [monthPick, hp]
      have hds : ¬(hasDateSat
          (fun d => decide (d.month = month ∧ d.year = year)) r = true) := by
        simp [hasDateSat, hp]
      rw [List.filterMap_cons_none hfr, List.filter_cons_of_neg hds]
      exact ih
    | some d =>
      by_cases hc : d.month = month ∧ d.year = year
      · have ht : truthyOpt r.agreed_payment_date = true := by
          cases htt : truthyOpt r.agreed_payment_date with
          | true => rfl
          | false =>
            rw [parseDate_of_falsy htt] at hp
            exact absurd hp (by simp)
        have hfr : monthPick month year r = some (r, d) := by
          simp [monthPick, hp, hc]
        have hds : hasDateSat
            (fun d => decide (d.month = month ∧ d.year = year)) r = true := by
          simp [hasDateSat, hp, hc, ht]
        rw [List.filterMap_cons_some hfr, List.filter_cons_of_pos hds,
          List.map_cons, ih]
      · have hfr : monthPick month year r = none := by
          simp [monthPick, hp, hc]
        have hds : ¬(hasDateSat
            (fun d => decide (d.month = month ∧ d.year = year)) r = true) := by
          simp [hasDateSat, hp, hc]
        rw [List.filterMap_cons_none hfr, List.filter_cons_of_neg hds]
        exact ih

/-! ### Helpers for insertion and the upcoming window -/

theorem find?_append_of_none {p : PaymentRequest → Bool} :
    ∀ l1 l2 : List PaymentRequest, l1.find? p = none →
      (l1 ++ l2).find? p = l2.find? p
  | [], _, _ => rfl
  | a :: rest, l2, h => by
    by_cases hpa : p a = true
    · rw [List.find?_cons_of_pos _ hpa] at h
      exact absurd h (by simp)
    · rw [List.find?_cons_of_neg _ hpa] at h
      rw [List.cons_append, List.find?_cons_of_neg _ hpa]
      exact find?_append_of_none rest l2 h

theorem upcomingPick_eq_some_of {today : Date} {r : PaymentRequest} {d : Date}
    (hp : parseDate (r.agreed_payment_date.getD "") = some d)
    (hw : today.rata ≤ d.rata ∧ d.rata ≤ today.rata + 7) :
    upcomingPick today r = some (r, d) := by
  simp [upcomingPick, hp, hw.1, hw.2]

theorem mem_upcoming_payments_of {reqs : List PaymentRequest} {today : Date}
    {r : PaymentRequest} {d : Date} (hmem : r ∈ reqs)
    (ht : truthyOpt r.agreed_payment_date = true)
    (hs : isActiveStatus r.status = true)
    (hp : parseDate (r.agreed_payment_date.getD "") = some d)
    (hw : today.rata ≤ d.rata ∧ d.rata ≤ today.rata + 7) :
    (r, d) ∈ upcoming_payments reqs today := by
  apply mem_sortByLe.2
  refine List.mem_filterMap.2 ⟨r, List.mem_filter.2 ⟨hmem, ?_⟩,
    upcomingPick_eq_some_of hp hw⟩
  rw [Bool.and_eq_true]
  exact ⟨ht, hs⟩

/-! ## The claims -/

/-- C1: the claim states that once a request's status has left `pendiente`,
any further `approve` or `reject` must fail with `InvalidTransition` instead
of writing new state.  The source has no such guard: `approve_cfo` and
`reject_cfo` `UPDATE ... WHERE id = ?` unconditionally (the spec itself
flags this as a latent bug, §4.2 and §9).  On a one-request store, approve
succeeds, a subsequent reject also succeeds and overwrites the status to
`rechazado`, and a further approve succeeds again. -/
theorem C1_cfo_guard_missing :
    let r0 : PaymentRequest :=
      { id := 1
        provider_name := "ACME"
        amount := 100
        payment_type := "total"
        payment_method := "transferencia"
        requested_by := "Ana"
        created_at := 0
        updated_at := 0 }
    let db0 : DB := { rows := [r0], nextId := 2 }
    (approve_cfo db0 1 1 "CFO").2 = true ∧
    (get_payment_request (approve_cfo db0 1 1 "CFO").1 1).map
        (fun x => x.status) = some "aprobado_cfo" ∧
    (reject_cfo (approve_cfo db0 1 1 "CFO").1 2 1 "CFO" none).2 = true ∧
    (get_payment_request
        (reject_cfo (approve_cfo db0 1 1 "CFO").1 2 1 "CFO" none).1 1).map
        (fun x => x.status) = some "rechazado" ∧
    (approve_cfo (reject_cfo (approve_cfo db0 1 1 "CFO").1 2 1 "CFO" none).1
        3 1 "CFO").2 = true := by
  exact ⟨rfl, rfl, rfl, rfl, rfl⟩

/-- C4: `update_payment_status` performs a partial update: `admin_notes` and
`payment_proof_path` are overwritten only when supplied, `updated_at` is
always refreshed, `completed_at` is set to now exactly when the new status is
`completado` (and otherwise keeps its stored value), and a missing id yields
the pair `(db, false)` — a false result, not an exception. -/
theorem C4_update_status_fields (db : DB) (now rid : Nat) (status : String)
    (notes proofPath : Option String) :
    (∀ r, get_payment_request db rid = some r →
      (update_payment_status db now rid status notes proofPath).2 = true ∧
      get_payment_request
          (update_payment_status db now rid status notes proofPath).1 rid
        = some { r with
            status := status
            updated_at := now
            admin_notes := match notes with
              | some s => some s
              | none => r.admin_notes
            payment_proof_path := match proofPath with
              | some s => some s
              | none => r.payment_proof_path
            completed_at := if status = "completado" then some now
              else r.completed_at }) ∧
    (get_payment_request db rid = none →
      update_payment_status db now rid status notes proofPath = (db, false)) := by
  constructor
  · intro r h
    exact update_payment_status_found db now rid status notes proofPath r h
  · intro h
    exact update_payment_status_not_found db now rid status notes proofPath h

theorem C4_update_status_fields_witness :
    let r0 : PaymentRequest :=
      { id := 1
        provider_name := "ACME"
        amount := 100
        payment_type := "total"
        payment_method := "transferencia"
        requested_by := "Ana"
        status := "aprobado_cfo"
        admin_notes := some "keep"
        created_at := 0
        updated_at := 0 }
    let db0 : DB := { rows := [r0], nextId := 2 }
    ((update_payment_status db0 7 1 "en_proceso" none none).2 = true ∧
      get_payment_request
          (update_payment_status db0 7 1 "en_proceso" none none).1 1
        = some { r0 with status := "en_proceso", updated_at := 7 }) ∧
    update_payment_status db0 7 2 "en_proceso" none none = (db0, false) := by
  intro r0 db0
  constructor
  · exact (C4_update_status_fields db0 7 1 "en_proceso" none none).1 r0 rfl
  · exact (C4_update_status_fields db0 7 2 "en_proceso" none none).2 rfl

/-- C5 (amended): saving notes from the admin panel overwrites `admin_notes`
verbatim, keeps the status and the `cfo_approved*` fields, and leaves
`completed_at` unchanged in every state except `completado`, where re-applying
the current status makes `update_payment_status` refresh `completed_at` to
now. -/
theorem C5_annotate_effect (db : DB) (now rid : Nat) (notes : String)
    (r : PaymentRequest) (h : get_payment_request db rid = some r) :
    (save_notes db now rid r.status notes).2 = true ∧
    get_payment_request (save_notes db now rid r.status notes).1 rid
      = some { r with
          admin_notes := some notes
          updated_at := now
          completed_at := if r.status = "completado" then some now
            else r.completed_at } :=
  update_payment_status_found db now rid r.status (some notes) none r h

theorem C5_annotate_effect_witness :
    let r0 : PaymentRequest :=
      { id := 1
        provider_name := "ACME"
        amount := 100
        payment_type := "total"
        payment_method := "transferencia"
        requested_by := "Ana"
        status := "pendiente"
        created_at := 0
        updated_at := 0 }
    let db0 : DB := { rows := [r0], nextId := 2 }
    (save_notes db0 9 1 r0.status "nota nueva").2 = true ∧
    get_payment_request (save_notes db0 9 1 r0.status "nota nueva").1 1
      = some { r0 with admin_notes := some "nota nueva", updated_at := 9 } := by
  intro r0 db0
  exact C5_annotate_effect db0 9 1 "nota nueva" r0 rfl

/-- C5, counterexample to the claim as stated: on a `completado` request the
"Guardar Notas" handler re-applies the status `completado`, so
`update_payment_status` refreshes `completed_at` — the stored completion time
`5` is overwritten with the current time `9`. -/
theorem C5_annotate_counterexample :
    let r0 : PaymentRequest :=
      { id := 1
        provider_name := "ACME"
        amount := 100
        payment_type := "total"
        payment_method := "transferencia"
        requested_by := "Ana"
        status := "completado"
        completed_at := some 5
        created_at := 0
        updated_at := 0 }
    let db0 : DB := { rows := [r0], nextId := 2 }
    (get_payment_request (save_notes db0 9 1 "completado" "ok").1 1).map
        (fun x => x.completed_at) = some (some 9) ∧
    ¬(some (9 : Nat) = some (5 : Nat)) := by
  exact ⟨rfl, by decide⟩

/-- C3 (amended): `reject_cfo` sets the CFO fields and the status, and
rewrites `admin_notes` through SQL
`COALESCE(admin_notes || ' | ', '') || msg`: when the stored notes are NULL
the result is exactly the rejection message, and when they are non-NULL —
including the reachable empty string — the message is appended after
`" | "`. -/
theorem C3_reject_effect (db : DB) (now rid : Nat) (approver : String)
    (reason : Option String) (r : PaymentRequest)
    (h : get_payment_request db rid = some r) :
    (reject_cfo db now rid approver reason).2 = true ∧
    get_payment_request (reject_cfo db now rid approver reason).1 rid
      = some { r with
          cfo_approved := false
          cfo_approved_by := some approver
          cfo_approved_at := some now
          status := "rechazado"
          admin_notes :=
            some (coalesceRejectNotes r.admin_notes (rejectionMessage reason))
          updated_at := now } ∧
    (r.admin_notes = none →
      coalesceRejectNotes r.admin_notes (rejectionMessage reason)
        = rejectionMessage reason) ∧
    (∀ s, r.admin_notes = some s →
      coalesceRejectNotes r.admin_notes (rejectionMessage reason)
        = s ++ " | " ++ rejectionMessage reason) := by
  obtain ⟨h1, h2⟩ := reject_cfo_found db now rid approver reason r h
  refine ⟨h1, h2, ?_, ?_⟩
  · intro hn
    rw [hn]
    rfl
  · intro s hs
    rw [hs]
    rfl

theorem C3_reject_effect_witness :
    let r0 : PaymentRequest :=
      { id := 1
        provider_name := "ACME"
        amount := 100
        payment_type := "total"
        payment_method := "transferencia"
        requested_by := "Ana"
        created_at := 0
        updated_at := 0 }
    let db0 : DB := { rows := [r0], nextId := 2 }
    (reject_cfo db0 4 1 "CFO" (some "Falta factura")).2 = true ∧
    get_payment_request (reject_cfo db0 4 1 "CFO" (some "Falta factura")).1 1
      = some { r0 with
          cfo_approved := false
          cfo_approved_by := some "CFO"
          cfo_approved_at := some 4
          status := "rechazado"
          admin_notes := some "Rechazado por CFO: Falta factura"
          updated_at := 4 } := by
  intro r0 db0
  have h := C3_reject_effect db0 4 1 "CFO" (some "Falta factura") r0 rfl
  refine ⟨h.1, ?_⟩
  have hmsg : coalesceRejectNotes r0.admin_notes
      (rejectionMessage (some "Falta factura"))
      = "Rechazado por CFO: Falta factura" := by
    rw [h.2.2.1 rfl]
    rfl
  rw [h.2.1, hmsg]

/-- C3, counterexample to the claim as stated: a request whose `admin_notes`
is the empty string (reachable by saving empty notes from the admin panel) is
non-NULL for `COALESCE`, so rejection produces a leading `" | "` — not the
bare message the claim promises for "empty" notes. -/
theorem C3_reject_counterexample :
    let r0 : PaymentRequest :=
      { id := 1
        provider_name := "ACME"
        amount := 100
        payment_type := "total"
        payment_method := "transferencia"
        requested_by := "Ana"
        admin_notes := some ""
        created_at := 0
        updated_at := 0 }
    let db0 : DB := { rows := [r0], nextId := 2 }
    (get_payment_request (reject_cfo db0 4 1 "CFO" (some "Falta factura")).1
        1).map (fun x => x.admin_notes)
      = some (some " | Rechazado por CFO: Falta factura") ∧
    ¬(" | Rechazado por CFO: Falta factura"
      = "Rechazado por CFO: Falta factura") := by
  exact ⟨rfl, by decide⟩

/-- C2: at the form boundary a submission fails with a validation error
exactly when a fillable required field is missing (`provider_name` or
`np_number` left empty — the widget-backed fields `payment_type`,
`payment_method` and `requested_by` always carry a value) or `amount ≤ 0`;
the store is left untouched on failure; otherwise the fresh auto-increment
id is returned and the new row has `status = pendiente` and
`created_at = updated_at = now`. -/
theorem C2_create_request_validation (db : DB) (now : Nat)
    (selected_user provider_name : String) (provider_id : Option String)
    (oc_type oc_number np_type np_number : String) (amount : ℚ)
    (payment_type payment_method payment_term : String)
    (agreed_date mockup_path invoice_path : Option String) :
    ((∃ msg, (submit_payment_request db now selected_user provider_name
        provider_id oc_type oc_number np_type np_number amount payment_type
        payment_method payment_term agreed_date mockup_path invoice_path).2
        = SubmitResult.validationError msg) ↔
      (provider_name = "" ∨ np_number = "" ∨ amount ≤ 0)) ∧
    ((provider_name = "" ∨ np_number = "" ∨ amount ≤ 0) →
      (submit_payment_request db now selected_user provider_name provider_id
        oc_type oc_number np_type np_number amount payment_type payment_method
        payment_term agreed_date mockup_path invoice_path).1 = db) ∧
    (provider_name ≠ "" → np_number ≠ "" → 0 < amount →
      (submit_payment_request db now selected_user provider_name provider_id
          oc_type oc_number np_type np_number amount payment_type
          payment_method payment_term agreed_date mockup_path
          invoice_path).2 = SubmitResult.created db.nextId ∧
      ((∀ r ∈ db.rows, r.id < db.nextId) →
        ∃ row, (submit_payment_request db now selected_user provider_name
            provider_id oc_type oc_number np_type np_number amount payment_type
            payment_method payment_term agreed_date mockup_path
            invoice_path).1.rows = db.rows ++ [row] ∧
          get_payment_request (submit_payment_request db now selected_user
            provider_name provider_id oc_type oc_number np_type np_number
            amount payment_type payment_method payment_term agreed_date
            mockup_path invoice_path).1 db.nextId = some row ∧
          row.id = db.nextId ∧ row.status = "pendiente" ∧
          row.created_at = now ∧ row.updated_at = now ∧
          row.amount = amount ∧ row.provider_name = provider_name ∧
          row.np_number = some np_number ∧
          row.requested_by = selected_user ∧ row.cfo_approved = false ∧
          row.admin_notes = none ∧ row.completed_at = none ∧
          ∀ r ∈ db.rows, r.id ≠ row.id)) := by
  refine ⟨⟨?_, ?_⟩, ?_, ?_⟩
  · rintro ⟨msg, hmsg⟩
    by_contra hall
    push_neg at hall
    obtain ⟨hq1, hq2, hq3⟩ := hall
    have hred : (submit_payment_request db now selected_user provider_name
        provider_id oc_type oc_number np_type np_number amount payment_type
        payment_method payment_term agreed_date mockup_path invoice_path).2
        = SubmitResult.created db.nextId := by
      unfold submit_payment_request
      rw [if_neg hq1, if_neg hq2, if_neg (not_le.2 hq3)]
      rfl
    rw [hred] at hmsg
    exact SubmitResult.noConfusion hmsg
  · intro h
    by_cases h1 : provider_name = ""
    · exact ⟨"Por favor ingrese el nombre del proveedor.", by
        unfold submit_payment_request
        rw [if_pos h1]⟩
    · by_cases h2 : np_number = ""
      · exact ⟨"Por favor ingrese el número de Nota de Pedido.", by
          unfold submit_payment_request
          rw [if_neg h1, if_pos h2]⟩
      · have h3 : amount ≤ 0 := by
          rcases h with hh | hh | hh
          · exact absurd hh h1
          · exact absurd hh h2
          · exact hh
        exact ⟨"Por favor ingrese un monto válido.", by
          unfold submit_payment_request
          rw [if_neg h1, if_neg h2, if_pos h3]⟩
  · intro h
    by_cases h1 : provider_name = ""
    · show (submit_payment_request db now selected_user provider_name
        provider_id oc_type oc_number np_type np_number amount payment_type
        payment_method payment_term agreed_date mockup_path invoice_path).1 = db
      unfold submit_payment_request
      rw [if_pos h1]
    · by_cases h2 : np_number = ""
      · show (submit_payment_request db now selected_user provider_name
          provider_id oc_type oc_number np_type np_number amount payment_type
          payment_method payment_term agreed_date mockup_path invoice_path).1
          = db
        unfold submit_payment_request
        rw [if_neg h1, if_pos h2]
      · have h3 : amount ≤ 0 := by
          rcases h with hh | hh | hh
          · exact absurd hh h1
          · exact absurd hh h2
          · exact hh
        show (submit_payment_request db now selected_user provider_name
          provider_id oc_type oc_number np_type np_number amount payment_type
          payment_method payment_term agreed_date mockup_path invoice_path).1
          = db
        unfold submit_payment_request
        rw [if_neg h1, if_neg h2, if_pos h3]
  · intro h1 h2 h3
    have h3' : ¬(amount ≤ 0) := not_le.2 h3
    have hval : submit_payment_request db now selected_user provider_name
        provider_id oc_type oc_number np_type np_number amount payment_type
        payment_method payment_term agreed_date mockup_path invoice_path
        = ({ rows := db.rows ++ [{
              id := db.nextId
              provider_name := provider_name
              provider_id := match provider_id with
                | some s => if s ≠ "" then some s else none
                | none => none
              purchase_order_number :=
                if oc_number ≠ "" then some (oc_type ++ "-" ++ oc_number)
                else none
              np_type := some np_type
              np_number := some np_number
              amount := amount
              payment_type := payment_type.toLower
              payment_method := payment_method.toLower
              payment_term :=
                if payment_term ≠ "" then some payment_term else none
              agreed_payment_date := agreed_date
              mockup_path := mockup_path
              invoice_path := invoice_path
              requested_by := selected_user
              status := "pendiente"
              cfo_approved := false
              cfo_approved_by := none
              cfo_approved_at := none
              admin_notes := none
              payment_proof_path := none
              created_at := now
              updated_at := now
              completed_at := none }], nextId := db.nextId + 1 },
            SubmitResult.created db.nextId) := by
      unfold submit_payment_request
      rw [if_neg h1, if_neg h2, if_neg h3']
      rfl
    refine ⟨by rw [hval], ?_⟩
    intro hwf
    refine ⟨_, by rw [hval], ?_, rfl, rfl, rfl, rfl, rfl, rfl, rfl, rfl, rfl,
      rfl, rfl, ?_⟩
    · rw [hval]
      show (db.rows ++ [_]).find?
        (fun x : PaymentRequest => x.id == db.nextId) = _
      have hnone : db.rows.find? (fun x => x.id == db.nextId) = none := by
        apply List.find?_eq_none.2
        intro r hr habs
        exact absurd (by simpa using habs) (Nat.ne_of_lt (hwf r hr))
      rw [find?_append_of_none db.rows _ hnone]
      rw [List.find?_cons_of_pos _ (by simp)]
    · intro r hr
      exact Nat.ne_of_lt (hwf r hr)

theorem C2_create_request_validation_witness :
    (submit_payment_request { rows := [], nextId := 1 } 0 "Ana" "ACME" none
        "OC" "" "NPA" "0042" 1500 "Total" "Transferencia" "" none none
        none).2 = SubmitResult.created 1 ∧
    ¬(("ACME" : String) = "") ∧ (0 : ℚ) < 1500 := by
  refine ⟨?_, by decide, by norm_num⟩
  exact ((C2_create_request_validation { rows := [], nextId := 1 } 0 "Ana"
    "ACME" none "OC" "" "NPA" "0042" 1500 "Total" "Transferencia" "" none
    none none).2.2 (by decide) (by decide) (by norm_num)).1

/-- C6 (amended): a `pendiente` request whose agreed date parses and lies
exactly 3 days after the reference date appears in the 7-day upcoming list
with `days_until = 3`, and its urgency is the middle tier — icon 🟠, the
spec's `medium` (`high`, icon 🔴, requires `days_until ≤ 2`). -/
theorem C6_upcoming_three_days (reqs : List PaymentRequest) (today : Date)
    (r : PaymentRequest) (d : Date) (hmem : r ∈ reqs)
    (hstatus : r.status = "pendiente")
    (ht : truthyOpt r.agreed_payment_date = true)
    (hp : parseDate (r.agreed_payment_date.getD "") = some d)
    (hd : d.rata = today.rata + 3) :
    (r, d) ∈ upcoming_payments reqs today ∧
    days_until today d = 3 ∧
    urgencyIcon (days_until today d) = "🟠" ∧
    urgencyTierSpec (days_until today d) = "medium" := by
  have hw : today.rata ≤ d.rata ∧ d.rata ≤ today.rata + 7 := by
    rw [hd]
    omega
  have hs : isActiveStatus r.status = true := by
    rw [hstatus]
    rfl
  have hdu : days_until today d = 3 := by
    rw [days_until, hd]
    omega
  refine ⟨mem_upcoming_payments_of hmem ht hs hp hw, hdu, ?_, ?_⟩
  · rw [hdu]
    rfl
  · rw [hdu]
    rfl

theorem C6_upcoming_three_days_witness :
    let r0 : PaymentRequest :=
      { id := 1
        provider_name := "ACME"
        amount := 100
        payment_type := "total"
        payment_method := "transferencia"
        requested_by := "Ana"
        status := "pendiente"
        agreed_payment_date := some "2026-10-18"
        created_at := 0
        updated_at := 0 }
    (r0, ⟨2026, 10, 18⟩) ∈ upcoming_payments [r0] ⟨2026, 10, 15⟩ ∧
    days_until ⟨2026, 10, 15⟩ ⟨2026, 10, 18⟩ = 3 ∧
    urgencyIcon (days_until ⟨2026, 10, 15⟩ ⟨2026, 10, 18⟩) = "🟠" := by
  intro r0
  have h := C6_upcoming_three_days [r0] ⟨2026, 10, 15⟩ r0 ⟨2026, 10, 18⟩
    (List.mem_singleton.2 rfl) rfl (by decide) (by decide) (by decide)
  exact ⟨h.1, h.2.1, h.2.2.1⟩

/-- C6, counterexample to the claim as stated: the request dated 3 days
after the reference date is listed in the 7-day window, but its urgency is
the medium tier (icon 🟠), not `high` (icon 🔴) — `high` requires
`days_until ≤ 2`. -/
theorem C6_upcoming_counterexample :
    let r0 : PaymentRequest :=
      { id := 1
        provider_name := "ACME"
        amount := 100
        payment_type := "total"
        payment_method := "transferencia"
        requested_by := "Ana"
        status := "pendiente"
        agreed_payment_date := some "2026-06-18"
        created_at := 0
        updated_at := 0 }
    upcoming_payments [r0] ⟨2026, 6, 15⟩ = [(r0, ⟨2026, 6, 18⟩)] ∧
    days_until ⟨2026, 6, 15⟩ ⟨2026, 6, 18⟩ = 3 ∧
    urgencyIcon (days_until ⟨2026, 6, 15⟩ ⟨2026, 6, 18⟩) = "🟠" ∧
    ¬(urgencyIcon (days_until ⟨2026, 6, 15⟩ ⟨2026, 6, 18⟩) = "🔴") ∧
    urgencyTierSpec (days_until ⟨2026, 6, 15⟩ ⟨2026, 6, 18⟩) = "medium" ∧
    ¬(("medium" : String) = "high") := by
  exact ⟨rfl, by decide, by decide, by decide, by decide, by decide⟩

/-- C7: the cumulative cashflow table has one entry per dated active
request, entries are sorted ascending by date, each running total is the
previous one plus the entry's own amount (a prefix-sum scan), positive
amounts make the running totals monotonically non-decreasing, and the final
running total equals the sum of the amounts over all dated active
requests. -/
theorem C7_cumulative_cashflow_props (reqs : List PaymentRequest) :
    (cumulative_cashflow reqs).length = (with_date reqs).length ∧
    ((cumulative_cashflow reqs).map (fun e => e.pago)).Perm
      ((with_date reqs).map (fun p => p.1.amount)) ∧
    (cumulative_cashflow reqs).Pairwise
      (fun a b => a.fecha.rata ≤ b.fecha.rata) ∧
    (∀ i (h : i + 1 < (cumulative_cashflow reqs).length),
      ((cumulative_cashflow reqs).get ⟨i + 1, h⟩).acumulado
        = ((cumulative_cashflow reqs).get
            ⟨i, Nat.lt_of_succ_lt h⟩).acumulado
          + ((cumulative_cashflow reqs).get ⟨i + 1, h⟩).pago) ∧
    ((∀ r ∈ reqs, 0 < r.amount) →
      (cumulative_cashflow reqs).Pairwise
        (fun a b => a.acumulado ≤ b.acumulado)) ∧
    (∀ e, (cumulative_cashflow reqs).getLast? = some e →
      e.acumulado = ((with_date reqs).map (fun p => p.1.amount)).sum) := by
  have hperm : (sortByLe byDateAsc (with_date reqs)).Perm (with_date reqs) :=
    sortByLe_perm byDateAsc (with_date reqs)
  refine ⟨?_, ?_, ?_, ?_, ?_, ?_⟩
  · rw [cumulative_cashflow, cumScan_length]
    exact hperm.length_eq
  · rw [cumulative_cashflow, cumScan_map_pago]
    exact hperm.map (fun p => p.1.amount)
  · have hTot : ∀ a b : PaymentRequest × Date,
        byDateAsc a b = true ∨ byDateAsc b a = true := by
      intro a b
      rcases Nat.le_total a.2.rata b.2.rata with h | h
      · exact Or.inl (decide_eq_true h)
      · exact Or.inr (decide_eq_true h)
    have hTrans : ∀ a b c : PaymentRequest × Date,
        byDateAsc a b = true → byDateAsc b c = true →
        byDateAsc a c = true := by
      intro a b c hab hbc
      exact decide_eq_true ((of_decide_eq_true hab).trans (of_decide_eq_true hbc))
    have hsorted := pairwise_sortByLe byDateAsc hTot hTrans (with_date reqs)
    have hsorted2 : (sortByLe byDateAsc (with_date reqs)).Pairwise
        (fun a b => a.2.rata ≤ b.2.rata) :=
      hsorted.imp (fun h => of_decide_eq_true h)
    have hmapped : ((cumulative_cashflow reqs).map (fun e => e.fecha)).Pairwise
        (fun a b => a.rata ≤ b.rata) := by
      rw [cumulative_cashflow, cumScan_map_fecha]
      exact (List.pairwise_map).2 hsorted2
    exact (List.pairwise_map (f := fun e : CumEntry => e.fecha)
      (R := fun a b : Date => a.rata ≤ b.rata)).1 hmapped
  · exact fun i h => cumScan_acum_succ (sortByLe byDateAsc (with_date reqs))
      0 i h
  · intro hpos
    apply cumScan_pairwise_acum
    intro p hp
    have hp2 : p ∈ with_date reqs := mem_sortByLe.1 hp
    have hp3 : p.1 ∈ active_payments reqs := mem_partitionDates_fst hp2
    have hp4 : p.1 ∈ reqs := List.mem_of_mem_filter hp3
    exact le_of_lt (hpos p.1 hp4)
  · intro e he
    have := cumScan_getLast?_acum (sortByLe byDateAsc (with_date reqs)) 0 e he
    rw [this, zero_add]
    exact (hperm.map (fun p => p.1.amount)).sum_eq

theorem C7_cumulative_cashflow_props_witness :
    let r1 : PaymentRequest :=
      { id := 1
        provider_name := "ACME"
        amount := 100
        payment_type := "total"
        payment_method := "transferencia"
        requested_by := "Ana"
        status := "pendiente"
        agreed_payment_date := some "2026-07-01"
        created_at := 0
        updated_at := 0 }
    let r2 : PaymentRequest :=
      { id := 2
        provider_name := "Otro"
        amount := 200
        payment_type := "parcial"
        payment_method := "e-cheq"
        requested_by := "Ana"
        status := "en_proceso"
        agreed_payment_date := some "2026-07-03"
        created_at := 1
        updated_at := 1 }
    (∀ r ∈ [r1, r2], 0 < r.amount) ∧
    (cumulative_cashflow [r1, r2]).Pairwise
      (fun a b => a.acumulado ≤ b.acumulado) ∧
    (∀ e, (cumulative_cashflow [r1, r2]).getLast? = some e →
      e.acumulado = ((with_date [r1, r2]).map (fun p => p.1.amount)).sum) := by
  intro r1 r2
  have h := C7_cumulative_cashflow_props [r1, r2]
  exact ⟨by decide, h.2.2.2.2.1 (by decide), h.2.2.2.2.2⟩

/-- C8: the calendar view considers exactly the active requests whose agreed
date parses into the selected month and year (unparsable dates are silently
excluded by the membership characterisation), groups them by exact date —
each date's group is precisely the sub-list of month payments on that date,
giving the per-date count and total — and the month-wide total is the sum of
the amounts over exactly those requests; two same-day requests of amounts
100 and 200 yield count 2 and total 300 for that date. -/
theorem C8_calendar_view_props (reqs : List PaymentRequest)
    (month year : Nat) :
    (∀ r d, (r, d) ∈ month_payments reqs month year ↔
      r ∈ reqs ∧ truthyOpt r.agreed_payment_date = true ∧
      isActiveStatus r.status = true ∧
      parseDate (r.agreed_payment_date.getD "") = some d ∧
      d.month = month ∧ d.year = year) ∧
    (∀ d, lookupDate (payments_by_date (month_payments reqs month year)) d
      = (month_payments reqs month year).filter (fun p => decide (p.2 = d))) ∧
    total_month reqs month year
      = ((reqs.filter (fun r =>
          (truthyOpt r.agreed_payment_date && isActiveStatus r.status) &&
          hasDateSat (fun d => decide (d.month = month ∧ d.year = year))
            r)).map (fun r => r.amount)).sum ∧
    (let a1 : PaymentRequest :=
      { id := 1
        provider_name := "ACME"
        amount := 100
        payment_type := "total"
        payment_method := "transferencia"
        requested_by := "Ana"
        status := "pendiente"
        agreed_payment_date := some "2026-09-10"
        created_at := 0
        updated_at := 0 }
     let a2 : PaymentRequest :=
      { id := 2
        provider_name := "Otro"
        amount := 200
        payment_type := "parcial"
        payment_method := "e-cheq"
        requested_by := "Ana"
        status := "en_proceso"
        agreed_payment_date := some "2026-09-10"
        created_at := 1
        updated_at := 1 }
     (lookupDate (payments_by_date (month_payments [a1, a2] 9 2026))
        ⟨2026, 9, 10⟩).length = 2 ∧
     ((lookupDate (payments_by_date (month_payments [a1, a2] 9 2026))
        ⟨2026, 9, 10⟩).map (fun p => p.1.amount)).sum = 300 ∧
     total_month [a1, a2] 9 2026 = 300) := by
  refine ⟨fun r d => mem_month_payments,
    fun d => lookupDate_payments_by_date _ d, ?_, ?_⟩
  case refine_2 =>
    intro a1 a2
    refine ⟨by decide, ?_, ?_⟩
    · have hlist : (lookupDate (payments_by_date (month_payments [a1, a2] 9
          2026)) ⟨2026, 9, 10⟩).map (fun p => p.1.amount)
          = [(100 : ℚ), 200] := rfl
      rw [hlist]
      norm_num [List.sum_cons, List.sum_nil]
    · have hlist : (month_payments [a1, a2] 9 2026).map
          (fun p => p.1.amount) = [(100 : ℚ), 200] := rfl
      show ((month_payments [a1, a2] 9 2026).map (fun p => p.1.amount)).sum
        = 300
      rw [hlist]
      norm_num [List.sum_cons, List.sum_nil]
  have h2 : (month_payments reqs month year).map (fun p => p.1)
      = (scheduled_payments reqs).filter
        (hasDateSat (fun d => decide (d.month = month ∧ d.year = year))) :=
    filterMap_monthPick_map_fst month year (scheduled_payments reqs)
  have h3 : (scheduled_payments reqs).filter
      (hasDateSat (fun d => decide (d.month = month ∧ d.year = year)))
      = reqs.filter (fun r =>
        (truthyOpt r.agreed_payment_date && isActiveStatus r.status) &&
        hasDateSat (fun d => decide (d.month = month ∧ d.year = year)) r) := by
    rw [scheduled_payments, List.filter_filter]
    exact List.filter_congr (fun r _ => Bool.and_comm _ _)
  have h4 : (month_payments reqs month year).map (fun p => p.1.amount)
      = ((month_payments reqs month year).map (fun p => p.1)).map
        (fun r => r.amount) := by
    rw [List.map_map]
    rfl
  show ((month_payments reqs month year).map (fun p => p.1.amount)).sum = _
  rw [h4, h2, h3]

/-- An active request whose date parses into week `i` of the weekly
projection (`today + 7i ≤ date ≤ today + 7i + 6`). -/
def weekReqPred (today : Date) (i : Nat) (r : PaymentRequest) : Bool :=
  isActiveStatus r.status &&
    hasDateSat (fun d => decide (today.rata + 7 * i ≤ d.rata ∧
      d.rata ≤ today.rata + 7 * i + 6)) r

/-- An active request whose date parses into month `i` of the monthly
projection (the calendar month `i` months after today's month, from its
first to its last day). -/
def monthReqPred (today : Date) (i : Nat) (r : PaymentRequest) : Bool :=
  isActiveStatus r.status &&
    hasDateSat (fun d =>
      decide ((Date.mk ((monthIndex today + i) / 12)
          ((monthIndex today + i) % 12 + 1) 1).rata ≤ d.rata ∧
        d.rata ≤ (Date.mk ((monthIndex today + i) / 12)
          ((monthIndex today + i) % 12 + 1)
          (daysInMonth ((monthIndex today + i) / 12)
            ((monthIndex today + i) % 12 + 1))).rata)) r

/-- An active request with no usable agreed date: the field is missing,
empty, or fails to parse. -/
def unscheduledPred (r : PaymentRequest) : Bool :=
  isActiveStatus r.status &&
    !(truthyOpt r.agreed_payment_date &&
      (parseDate (r.agreed_payment_date.getD "")).isSome)

theorem with_date_filter_map_fst (reqs : List PaymentRequest)
    (q : Date → Bool) :
    ((with_date reqs).filter (fun p => q p.2)).map (fun p => p.1)
      = reqs.filter (fun r => isActiveStatus r.status && hasDateSat q r) := by
  have h := partitionDates_fst_filter q (active_payments reqs)
  refine h.trans ?_
  rw [active_payments, List.filter_filter]
  exact List.filter_congr (fun r _ => Bool.and_comm _ _)

theorem with_date_filter_amounts (reqs : List PaymentRequest)
    (q : Date → Bool) :
    (((with_date reqs).filter (fun p => q p.2)).map (fun p => p.1.amount)
      = (reqs.filter (fun r => isActiveStatus r.status && hasDateSat q r)).map
          (fun r => r.amount)) ∧
    ((with_date reqs).filter (fun p => q p.2)).length
      = (reqs.filter (fun r =>
          isActiveStatus r.status && hasDateSat q r)).length := by
  have h := with_date_filter_map_fst reqs q
  constructor
  · have h2 : ((with_date reqs).filter (fun p => q p.2)).map
        (fun p => p.1.amount)
        = (((with_date reqs).filter (fun p => q p.2)).map (fun p => p.1)).map
            (fun r => r.amount) := by
      rw [List.map_map]
      rfl
    rw [h2, h]
  · rw [← h, List.length_map]

theorem week_bucket_eq (reqs : List PaymentRequest) (today : Date) (i : Nat) :
    week_bucket today (with_date reqs) i
      = { total := ((reqs.filter (weekReqPred today i)).map
            (fun r => r.amount)).sum
          count := (reqs.filter (weekReqPred today i)).length } := by
  have h := with_date_filter_amounts reqs
    (fun d => decide (today.rata + 7 * i ≤ d.rata ∧
      d.rata ≤ today.rata + 7 * i + 6))
  show Bucket.mk
      (((with_date reqs).filter (fun p =>
        decide (today.rata + 7 * i ≤ p.2.rata ∧
          p.2.rata ≤ today.rata + 7 * i + 6))).map (fun p => p.1.amount)).sum
      ((with_date reqs).filter (fun p =>
        decide (today.rata + 7 * i ≤ p.2.rata ∧
          p.2.rata ≤ today.rata + 7 * i + 6))).length = _
  rw [h.1, h.2]
  rfl

theorem month_bucket_eq (reqs : List PaymentRequest) (today : Date)
    (i : Nat) :
    month_bucket today (with_date reqs) i
      = { total := ((reqs.filter (monthReqPred today i)).map
            (fun r => r.amount)).sum
          count := (reqs.filter (monthReqPred today i)).length } := by
  have h := with_date_filter_amounts reqs
    (fun d => decide ((Date.mk ((monthIndex today + i) / 12)
        ((monthIndex today + i) % 12 + 1) 1).rata ≤ d.rata ∧
      d.rata ≤ (Date.mk ((monthIndex today + i) / 12)
        ((monthIndex today + i) % 12 + 1)
        (daysInMonth ((monthIndex today + i) / 12)
          ((monthIndex today + i) % 12 + 1))).rata))
  show Bucket.mk
      (((with_date reqs).filter (fun p =>
        decide ((Date.mk ((monthIndex today + i) / 12)
            ((monthIndex today + i) % 12 + 1) 1).rata ≤ p.2.rata ∧
          p.2.rata ≤ (Date.mk ((monthIndex today + i) / 12)
            ((monthIndex today + i) % 12 + 1)
            (daysInMonth ((monthIndex today + i) / 12)
              ((monthIndex today + i) % 12 + 1))).rata))).map
        (fun p => p.1.amount)).sum
      ((with_date reqs).filter (fun p =>
        decide ((Date.mk ((monthIndex today + i) / 12)
            ((monthIndex today + i) % 12 + 1) 1).rata ≤ p.2.rata ∧
          p.2.rata ≤ (Date.mk ((monthIndex today + i) / 12)
            ((monthIndex today + i) % 12 + 1)
            (daysInMonth ((monthIndex today + i) / 12)
              ((monthIndex today + i) % 12 + 1))).rata))).length = _
  rw [h.1, h.2]
  rfl

theorem total_unscheduled_eq (reqs : List PaymentRequest) :
    total_unscheduled reqs
      = ((reqs.filter unscheduledPred).map (fun r => r.amount)).sum := by
  have h : without_date reqs = reqs.filter unscheduledPred := by
    rw [without_date, partitionDates_snd_filter (active_payments reqs),
      active_payments, List.filter_filter]
    exact List.filter_congr (fun r _ => Bool.and_comm _ _)
  show ((without_date reqs).map (fun r => r.amount)).sum = _
  rw [h]

/-- C9 (amended): each weekly bucket `i` totals and counts exactly the
active requests whose agreed date parses into `[today + 7i, today + 7i + 6]`
(the weekly axis starts at today); each monthly bucket `i` totals and counts
exactly the active requests whose agreed date parses into the calendar month
`i` months after today's month — the first monthly bucket starts on day 1 of
the current month, so it can reach back before today; and the unscheduled
total sums exactly the active requests whose date is missing, empty or
unparsable, which by the bucket characterisations belong to no bucket. -/
theorem C9_projection_props (reqs : List PaymentRequest) (today : Date) :
    weekly_projection today reqs = (List.range 8).map (fun i =>
      { total := ((reqs.filter (weekReqPred today i)).map
          (fun r => r.amount)).sum
        count := (reqs.filter (weekReqPred today i)).length }) ∧
    monthly_projection today reqs = (List.range 6).map (fun i =>
      { total := ((reqs.filter (monthReqPred today i)).map
          (fun r => r.amount)).sum
        count := (reqs.filter (monthReqPred today i)).length }) ∧
    total_unscheduled reqs
      = ((reqs.filter unscheduledPred).map (fun r => r.amount)).sum := by
  refine ⟨?_, ?_, total_unscheduled_eq reqs⟩
  · exact List.map_congr_left (fun i _ => week_bucket_eq reqs today i)
  · exact List.map_congr_left (fun i _ => month_bucket_eq reqs today i)

set_option maxHeartbeats 2000000 in
/-- C9, counterexample to the claim as stated: the monthly buckets do not
start at today.  With today = 2026-10-15, a pending request dated 2026-10-01
— strictly before today — is counted (with its amount 50) in the first
monthly bucket, although no weekly bucket (these do start at today) contains
it. -/
theorem C9_projection_counterexample :
    let r0 : PaymentRequest :=
      { id := 1
        provider_name := "ACME"
        amount := 50
        payment_type := "total"
        payment_method := "transferencia"
        requested_by := "Ana"
        status := "pendiente"
        agreed_payment_date := some "2026-10-01"
        created_at := 0
        updated_at := 0 }
    ((monthly_projection ⟨2026, 10, 15⟩ [r0]).map (fun b => b.count))
      = [1, 0, 0, 0, 0, 0] ∧
    ((monthly_projection ⟨2026, 10, 15⟩ [r0]).getD 0 ⟨0, 0⟩).total = 50 ∧
    ((weekly_projection ⟨2026, 10, 15⟩ [r0]).map (fun b => b.count))
      = [0, 0, 0, 0, 0, 0, 0, 0] ∧
    (⟨2026, 10, 1⟩ : Date).rata < (⟨2026, 10, 15⟩ : Date).rata := by
  intro r0
  refine ⟨by decide, ?_, by decide, by decide⟩
  have h0 : (monthly_projection ⟨2026, 10, 15⟩ [r0]).getD 0 ⟨0, 0⟩
      = month_bucket ⟨2026, 10, 15⟩ (with_date [r0]) 0 := rfl
  rw [h0, month_bucket_eq [r0] ⟨2026, 10, 15⟩ 0]
  show (([r0].filter (monthReqPred ⟨2026, 10, 15⟩ 0)).map
    (fun r => r.amount)).sum = 50
  have hf : ([r0].filter (monthReqPred ⟨2026, 10, 15⟩ 0)).map
      (fun r => r.amount) = [(50 : ℚ)] := rfl
  rw [hf]
  norm_num [List.sum_cons, List.sum_nil]

/-- C10: `get_payment_requests` with an empty-string filter takes the same
branch as no filter (`if status:` is falsy for both `None` and `""`): it
returns every stored request, ordered by `created_at` descending; only a
non-empty status string restricts the result to the requests with exactly
that status, still ordered by `created_at` descending. -/
theorem C10_list_requests_filter (db : DB) :
    get_payment_requests db (some "") = get_payment_requests db none ∧
    (∀ r, r ∈ get_payment_requests db none ↔ r ∈ db.rows) ∧
    (get_payment_requests db none).Pairwise
      (fun a b => b.created_at ≤ a.created_at) ∧
    (∀ s, ¬(s = "") → ∀ r, r ∈ get_payment_requests db (some s) ↔
      (r ∈ db.rows ∧ r.status = s)) ∧
    (∀ s, ¬(s = "") → (get_payment_requests db (some s)).Pairwise
      (fun a b => b.created_at ≤ a.created_at)) := by
  have hTot : ∀ a b : PaymentRequest,
      createdAtDesc a b = true ∨ createdAtDesc b a = true := by
    intro a b
    rcases Nat.le_total b.created_at a.created_at with h | h
    · exact Or.inl (decide_eq_true h)
    · exact Or.inr (decide_eq_true h)
  have hTrans : ∀ a b c : PaymentRequest,
      createdAtDesc a b = true → createdAtDesc b c = true →
      createdAtDesc a c = true := by
    intro a b c hab hbc
    exact decide_eq_true ((of_decide_eq_true hbc).trans (of_decide_eq_true hab))
  refine ⟨rfl, ?_, ?_, ?_, ?_⟩
  · intro r
    show r ∈ sortByLe createdAtDesc db.rows ↔ r ∈ db.rows
    exact mem_sortByLe
  · exact (pairwise_sortByLe createdAtDesc hTot hTrans db.rows).imp
      (fun h => of_decide_eq_true h)
  · intro s hs r
    have htr : truthyOpt (some s) = true := by
      simp [truthyOpt, hs]
    show r ∈ get_payment_requests db (some s) ↔ _
    rw [get_payment_requests, if_pos htr]
    rw [mem_sortByLe, List.mem_filter]
    constructor
    · rintro ⟨h1, h2⟩
      exact ⟨h1, of_decide_eq_true h2⟩
    · rintro ⟨h1, h2⟩
      exact ⟨h1, decide_eq_true h2⟩
  · intro s hs
    have htr : truthyOpt (some s) = true := by
      simp [truthyOpt, hs]
    rw [get_payment_requests, if_pos htr]
    exact (pairwise_sortByLe createdAtDesc hTot hTrans _).imp
      (fun h => of_decide_eq_true h)

theorem C10_list_requests_filter_witness :
    let rA : PaymentRequest :=
      { id := 1
        provider_name := "ACME"
        amount := 100
        payment_type := "total"
        payment_method := "transferencia"
        requested_by := "Ana"
        status := "pendiente"
        created_at := 1
        updated_at := 1 }
    let rB : PaymentRequest :=
      { id := 2
        provider_name := "Otro"
        amount := 200
        payment_type := "parcial"
        payment_method := "e-cheq"
        requested_by := "Ana"
        status := "rechazado"
        created_at := 2
        updated_at := 2 }
    let db0 : DB := { rows := [rA, rB], nextId := 3 }
    ¬(("pendiente" : String) = "") ∧
    (rA ∈ get_payment_requests db0 (some "pendiente") ↔
      (rA ∈ db0.rows ∧ rA.status = "pendiente")) ∧
    get_payment_requests db0 (some "") = get_payment_requests db0 none := by
  intro rA rB db0
  refine ⟨by decide, ?_, (C10_list_requests_filter db0).1⟩
  exact (C10_list_requests_filter db0).2.2.2.1 "pendiente" (by decide) rA

end Pagos
